import Mathlib

/-!
Shallow embedding of the TrustLeaseEscrow contract
(src/contracts/TrustLeaseEscrow.sol).

Addresses are modelled as `Nat`, wei amounts and unix timestamps as `Nat`,
and `uint256` arithmetic as `Nat` arithmetic (the quantities involved never
approach 2^256 under the contract's own preconditions, and Solidity 0.8
checked subtraction only occurs at sites guarded so that it cannot
underflow). External value transfers are modelled as an ordered list of
`Transfer` records emitted by each operation; a reverting call is
`Except.error` with the revert string, leaving the caller's state untouched.
The receipt-NFT mints are calls into an external collaborator and produce
no state in this component, so they are not part of the state.
-/

namespace TrustLease

/-- Agreement lifecycle status (enum AgreementStatus). -/
inductive AgreementStatus
  | Pending
  | Active
  | Completed
  | Disputed
  | Cancelled
  | Terminated
deriving DecidableEq, Repr

/-- Rent payment status (enum RentStatus). -/
inductive RentStatus
  | Paid
  | Overdue
  | Disputed
deriving DecidableEq, Repr

/-- struct RentalAgreement. -/
structure RentalAgreement where
  agreementId : Nat
  propertyId : Nat
  tenant : Nat
  landlord : Nat
  depositAmount : Nat
  monthlyRent : Nat
  rentInterval : Nat
  startDate : Nat
  endDate : Nat
  createdAt : Nat
  status : AgreementStatus
  metadataHash : String
  tenantConfirmed : Bool
  landlordConfirmed : Bool
  disputeDeadline : Nat
  nextRentDueDate : Nat
  overdueGracePeriod : Nat
  totalRentPaid : Nat
deriving DecidableEq, Repr

/-- struct RentPayment. -/
structure RentPayment where
  agreementId : Nat
  amount : Nat
  paidDate : Nat
  periodStart : Nat
  periodEnd : Nat
  status : RentStatus
deriving DecidableEq, Repr

/-- struct Dispute. -/
structure Dispute where
  agreementId : Nat
  initiator : Nat
  reason : String
  evidenceHashes : List String
  createdAt : Nat
  resolved : Bool
  winner : Nat
  isRentDispute : Bool
deriving DecidableEq, Repr

/-- struct FeeBreakdown (view-only, derived). -/
structure FeeBreakdown where
  depositAmount : Nat
  totalRentPaid : Nat
  platformFeeOnDeposit : Nat
  platformFeeOnRent : Nat
  listingFee : Nat
  totalGasSponsored : Nat
  netToLandlord : Nat
  netToTenant : Nat
deriving DecidableEq, Repr

/-- One external value transfer `Address.sendValue(recipient, amount)`. -/
structure Transfer where
  recipient : Nat
  amount : Nat
deriving DecidableEq, Repr

/-- Contract state restricted to a single agreement id, together with the
global fee/pool configuration that the per-agreement operations read and
write. `dispute` carries the Solidity mapping default (all-zero record)
until a dispute is written, exactly like `disputes[agreementId]`. -/
structure EscrowState where
  agreement : RentalAgreement
  dispute : Dispute
  payments : List RentPayment
  lastOverdueCheck : Nat
  gasSubsidyPool : Nat
  isGasSubsidized : Nat → Bool
  platformFeePercent : Nat
  rentProcessingFeePercent : Nat
  disputePeriod : Nat
  defaultGracePeriod : Nat
  platformWallet : Nat
  owner : Nat
  selfAddr : Nat

/-- One day in seconds (`1 days`). -/
def oneDay : Nat := 86400

/-- `_activateAgreement`: set status Active and the dispute deadline. -/
def _activateAgreement (s : EscrowState) (now : Nat) : EscrowState :=
  { s with agreement :=
      { s.agreement with
        status := AgreementStatus.Active
        disputeDeadline := now + s.disputePeriod } }

/-- `tenantConfirm(agreementId)` from the contract. -/
def tenantConfirm (s : EscrowState) (caller now : Nat) :
    Except String (EscrowState × List Transfer) :=
  let a := s.agreement
  if a.tenant ≠ caller then Except.error "Not the tenant"
  else if a.status ≠ AgreementStatus.Pending then Except.error "Agreement not pending"
  else if a.tenantConfirmed then Except.error "Already confirmed"
  else
    let s1 := { s with agreement := { a with tenantConfirmed := true } }
    if s1.agreement.landlordConfirmed then Except.ok (_activateAgreement s1 now, [])
    else Except.ok (s1, [])

/-- `landlordConfirm(agreementId)` from the contract. -/
def landlordConfirm (s : EscrowState) (caller now : Nat) :
    Except String (EscrowState × List Transfer) :=
  let a := s.agreement
  if a.landlord ≠ caller then Except.error "Not the landlord"
  else if a.status ≠ AgreementStatus.Pending then Except.error "Agreement not pending"
  else if a.landlordConfirmed then Except.error "Already confirmed"
  else
    let s1 := { s with agreement := { a with landlordConfirmed := true } }
    if s1.agreement.tenantConfirmed then Except.ok (_activateAgreement s1 now, [])
    else Except.ok (s1, [])

/-- `payRent(agreementId, metadataHash)`; `value` is `msg.value` and
`estGasCost` stands for the environment-supplied `tx.gasprice * gasleft()`. -/
def payRent (s : EscrowState) (caller now value : Nat) (metadataHash : String)
    (estGasCost : Nat) : Except String (EscrowState × List Transfer) :=
  let a := s.agreement
  if a.status ≠ AgreementStatus.Active then Except.error "Agreement not active"
  else if caller ≠ a.tenant then Except.error "Not the tenant"
  else if value < a.monthlyRent then Except.error "Insufficient rent amount"
  else if a.endDate < now then Except.error "Lease has ended"
  else
    let periodStart := a.nextRentDueDate - a.rentInterval
    let periodEnd := a.nextRentDueDate
    let payment : RentPayment :=
      { agreementId := a.agreementId, amount := value, paidDate := now
        periodStart := periodStart, periodEnd := periodEnd
        status := RentStatus.Paid }
    let a1 := { a with
        totalRentPaid := a.totalRentPaid + value
        nextRentDueDate := a.nextRentDueDate + a.rentInterval }
    let processingFee := value * s.rentProcessingFeePercent / 100
    let landlordAmount := value - processingFee
    let gasRefund :=
      if s.gasSubsidyPool < estGasCost then s.gasSubsidyPool else estGasCost
    let pool1 :=
      if s.isGasSubsidized caller = true ∧ 0 < s.gasSubsidyPool then
        s.gasSubsidyPool - gasRefund
      else s.gasSubsidyPool
    let subsidyTr : List Transfer :=
      if s.isGasSubsidized caller = true ∧ 0 < s.gasSubsidyPool then
        [{ recipient := caller, amount := gasRefund }]
      else []
    let excess := value - a.monthlyRent
    let excessTr : List Transfer :=
      if 0 < excess then [{ recipient := caller, amount := excess }] else []
    Except.ok
      ({ s with
          agreement := a1
          payments := s.payments ++ [payment]
          gasSubsidyPool := pool1 },
        subsidyTr ++ excessTr ++
          [{ recipient := a.landlord, amount := landlordAmount },
           { recipient := s.platformWallet, amount := processingFee }])

/-- `_autoRaiseRentDispute`: system-initiated rent dispute
(initiator = `address(this)`, empty evidence, fixed reason). -/
def _autoRaiseRentDispute (s : EscrowState) (now : Nat) : EscrowState :=
  { s with
    agreement := { s.agreement with status := AgreementStatus.Disputed }
    dispute :=
      { agreementId := s.agreement.agreementId
        initiator := s.selfAddr
        reason := "Rent payment overdue beyond grace period"
        evidenceHashes := []
        createdAt := now
        resolved := false
        winner := 0
        isRentDispute := true } }

/-- `checkRentOverdue(agreementId)` from the contract. -/
def checkRentOverdue (s : EscrowState) (caller now : Nat) :
    Except String (EscrowState × List Transfer) :=
  let a := s.agreement
  if a.status ≠ AgreementStatus.Active then Except.error "Agreement not active"
  else if ¬(caller = a.tenant ∨ caller = a.landlord ∨ caller = s.owner) then
    Except.error "Not authorized"
  else if ¬(s.lastOverdueCheck + oneDay < now) then
    Except.error "Cooldown: Check once per day"
  else
    let graceEnd := a.nextRentDueDate + a.overdueGracePeriod
    if ¬(graceEnd < now) then Except.error "Still within grace period"
    else
      let daysOverdue := (now - graceEnd) / oneDay
      let s1 := { s with lastOverdueCheck := now }
      if 3 ≤ daysOverdue ∧ s1.agreement.status ≠ AgreementStatus.Disputed then
        Except.ok (_autoRaiseRentDispute s1 now, [])
      else Except.ok (s1, [])

/-- `releaseDeposit(agreementId)` from the contract. -/
def releaseDeposit (s : EscrowState) (caller now : Nat) :
    Except String (EscrowState × List Transfer) :=
  let a := s.agreement
  if ¬(a.status = AgreementStatus.Active ∨ a.status = AgreementStatus.Completed) then
    Except.error "Agreement not releasable"
  else if ¬(caller = a.tenant ∨ caller = a.landlord ∨ caller = s.owner) then
    Except.error "Not authorized"
  else if now < a.disputeDeadline then Except.error "Dispute period not ended"
  else if now < a.endDate then Except.error "Lease not ended"
  else
    let platformFee := a.depositAmount * s.platformFeePercent / 100
    let landlordAmount := a.depositAmount - platformFee
    Except.ok
      ({ s with agreement := { a with status := AgreementStatus.Completed } },
        [{ recipient := a.landlord, amount := landlordAmount },
         { recipient := s.platformWallet, amount := platformFee }])

/-- `raiseDispute(agreementId, reason, evidenceHash)` from the contract. -/
def raiseDispute (s : EscrowState) (caller now : Nat) (reason evidenceHash : String) :
    Except String (EscrowState × List Transfer) :=
  let a := s.agreement
  if ¬(a.status = AgreementStatus.Active ∨ a.status = AgreementStatus.Pending) then
    Except.error "Agreement not disputable"
  else if ¬(caller = a.tenant ∨ caller = a.landlord) then
    Except.error "Not authorized"
  else if reason.length = 0 then Except.error "Reason required"
  else
    Except.ok
      ({ s with
          agreement := { a with status := AgreementStatus.Disputed }
          dispute :=
            { agreementId := a.agreementId
              initiator := caller
              reason := reason
              evidenceHashes := [evidenceHash]
              createdAt := now
              resolved := false
              winner := 0
              isRentDispute := false } }, [])

/-- `submitEvidence(agreementId, evidenceHash)` from the contract. -/
def submitEvidence (s : EscrowState) (caller : Nat) (evidenceHash : String) :
    Except String (EscrowState × List Transfer) :=
  if s.agreement.status ≠ AgreementStatus.Disputed then Except.error "No active dispute"
  else if ¬(caller = s.agreement.tenant ∨ caller = s.agreement.landlord) then
    Except.error "Not authorized"
  else if s.dispute.resolved then Except.error "Dispute already resolved"
  else if evidenceHash.length = 0 then Except.error "Evidence hash required"
  else
    Except.ok
      ({ s with dispute :=
          { s.dispute with evidenceHashes := s.dispute.evidenceHashes ++ [evidenceHash] } },
        [])

/-- `resolveDispute(agreementId, refundTenant)` from the contract (onlyOwner). -/
def resolveDispute (s : EscrowState) (caller : Nat) (refundTenant : Bool) :
    Except String (EscrowState × List Transfer) :=
  if caller ≠ s.owner then Except.error "Not the owner"
  else
    let a := s.agreement
    if a.status ≠ AgreementStatus.Disputed then Except.error "Agreement not disputed"
    else if s.dispute.resolved then Except.error "Dispute already resolved"
    else if refundTenant then
      Except.ok
        ({ s with
            dispute := { s.dispute with resolved := true, winner := a.tenant }
            agreement := { a with status := AgreementStatus.Terminated } },
          [{ recipient := a.tenant, amount := a.depositAmount }])
    else
      let platformFee := a.depositAmount * s.platformFeePercent / 100
      let landlordAmount := a.depositAmount - platformFee
      Except.ok
        ({ s with
            dispute := { s.dispute with resolved := true, winner := a.landlord }
            agreement := { a with status := AgreementStatus.Completed } },
          [{ recipient := a.landlord, amount := landlordAmount },
           { recipient := s.platformWallet, amount := platformFee }])

/-- `cancelAgreement(agreementId)` from the contract. -/
def cancelAgreement (s : EscrowState) (caller : Nat) :
    Except String (EscrowState × List Transfer) :=
  let a := s.agreement
  if a.status ≠ AgreementStatus.Pending then Except.error "Agreement not pending"
  else if caller ≠ a.tenant then Except.error "Only tenant can cancel"
  else
    Except.ok
      ({ s with agreement := { a with status := AgreementStatus.Cancelled } },
        [{ recipient := a.tenant, amount := a.depositAmount }])

/-- `terminateAgreement(agreementId, proRatedRefund)` from the contract (onlyOwner). -/
def terminateAgreement (s : EscrowState) (caller proRatedRefund : Nat) :
    Except String (EscrowState × List Transfer) :=
  if caller ≠ s.owner then Except.error "Not the owner"
  else
    let a := s.agreement
    if ¬(a.status = AgreementStatus.Active ∨ a.status = AgreementStatus.Disputed) then
      Except.error "Invalid status for termination"
    else if a.depositAmount + a.totalRentPaid < proRatedRefund then
      Except.error "Refund exceeds total paid"
    else
      let s1 := { s with agreement := { a with status := AgreementStatus.Terminated } }
      let tr1 : List Transfer :=
        if 0 < proRatedRefund then [{ recipient := a.tenant, amount := proRatedRefund }]
        else []
      let remaining := a.depositAmount + a.totalRentPaid - proRatedRefund
      let tr2 : List Transfer :=
        if 0 < remaining then
          [{ recipient := a.landlord
             amount := remaining - remaining * s.platformFeePercent / 100 },
           { recipient := s.platformWallet
             amount := remaining * s.platformFeePercent / 100 }]
        else []
      Except.ok (s1, tr1 ++ tr2)

/-- `fundGasSubsidy()`; `value` is `msg.value`. -/
def fundGasSubsidy (s : EscrowState) (value : Nat) :
    Except String (EscrowState × List Transfer) :=
  if value = 0 then Except.error "Must send funds"
  else Except.ok ({ s with gasSubsidyPool := s.gasSubsidyPool + value }, [])

/-- `calculateFeeBreakdown(agreementId)` (view); `listingFee` is the value
returned by the external `propertyVerification.getListingFee()`. -/
def calculateFeeBreakdown (s : EscrowState) (listingFee : Nat) : FeeBreakdown :=
  let a := s.agreement
  let depositFee := a.depositAmount * s.platformFeePercent / 100
  let rentFees := a.totalRentPaid * s.rentProcessingFeePercent / 100
  let landlordNet := (a.depositAmount - depositFee) + (a.totalRentPaid - rentFees)
  { depositAmount := a.depositAmount
    totalRentPaid := a.totalRentPaid
    platformFeeOnDeposit := depositFee
    platformFeeOnRent := rentFees
    listingFee := listingFee
    totalGasSponsored := 0
    netToLandlord := landlordNet
    netToTenant := 0 }

/-- One public state-mutating entry point of the contract, with its caller,
the block timestamp and its arguments. -/
inductive Op where
  | tenantConfirmOp (caller now : Nat)
  | landlordConfirmOp (caller now : Nat)
  | payRentOp (caller now value : Nat) (metadataHash : String) (estGasCost : Nat)
  | checkRentOverdueOp (caller now : Nat)
  | releaseDepositOp (caller now : Nat)
  | raiseDisputeOp (caller now : Nat) (reason evidenceHash : String)
  | submitEvidenceOp (caller : Nat) (evidenceHash : String)
  | resolveDisputeOp (caller : Nat) (refundTenant : Bool)
  | cancelAgreementOp (caller : Nat)
  | terminateAgreementOp (caller proRatedRefund : Nat)
  | fundGasSubsidyOp (value : Nat)

/-- Dispatch an operation against the state. -/
def step (s : EscrowState) : Op → Except String (EscrowState × List Transfer)
  | Op.tenantConfirmOp c n => tenantConfirm s c n
  | Op.landlordConfirmOp c n => landlordConfirm s c n
  | Op.payRentOp c n v m g => payRent s c n v m g
  | Op.checkRentOverdueOp c n => checkRentOverdue s c n
  | Op.releaseDepositOp c n => releaseDeposit s c n
  | Op.raiseDisputeOp c n r e => raiseDispute s c n r e
  | Op.submitEvidenceOp c e => submitEvidence s c e
  | Op.resolveDisputeOp c b => resolveDispute s c b
  | Op.cancelAgreementOp c => cancelAgreement s c
  | Op.terminateAgreementOp c r => terminateAgreement s c r
  | Op.fundGasSubsidyOp v => fundGasSubsidy s v

/-- The status edges of spec section 4.1 together with
Pending to Disputed (self-loops stand for an operation that leaves the
status unchanged). -/
def allowedEdge (a b : AgreementStatus) : Bool :=
  (a == b) ||
  (match a, b with
   | AgreementStatus.Pending, AgreementStatus.Active => true
   | AgreementStatus.Pending, AgreementStatus.Cancelled => true
   | AgreementStatus.Pending, AgreementStatus.Disputed => true
   | AgreementStatus.Active, AgreementStatus.Completed => true
   | AgreementStatus.Active, AgreementStatus.Disputed => true
   | AgreementStatus.Active, AgreementStatus.Terminated => true
   | AgreementStatus.Disputed, AgreementStatus.Completed => true
   | AgreementStatus.Disputed, AgreementStatus.Terminated => true
   | _, _ => false)

/-- The `msg.value` of a `payRent` call, 0 for every other operation. -/
def opRentValue : Op → Nat
  | Op.payRentOp _ _ v _ _ => v
  | _ => 0

/-- Whether the operation is a `payRent` call. -/
def isPayRentOp : Op → Bool
  | Op.payRentOp _ _ _ _ _ => true
  | _ => false

/-- Total amount sent out by a list of transfers. -/
def totalOut (tr : List Transfer) : Nat := (tr.map Transfer.amount).sum

/- Concrete states used by counterexamples and witnesses. -/

/-- A representative active agreement: deposit 1000 wei, monthly rent 100,
30-day interval, 2% deposit fee, 1% rent fee, tenant 5, landlord 7,
platform wallet 9, contract owner 3. -/
def baseAgreement : RentalAgreement :=
  { agreementId := 1, propertyId := 1, tenant := 5, landlord := 7,
    depositAmount := 1000, monthlyRent := 100, rentInterval := 2592000,
    startDate := 1000, endDate := 99999999, createdAt := 900,
    status := AgreementStatus.Active, metadataHash := "m",
    tenantConfirmed := true, landlordConfirmed := true,
    disputeDeadline := 1500, nextRentDueDate := 2593000,
    overdueGracePeriod := 259200, totalRentPaid := 0 }

/-- The Solidity mapping default for `disputes[agreementId]`. -/
def emptyDispute : Dispute :=
  { agreementId := 0, initiator := 0, reason := "", evidenceHashes := [],
    createdAt := 0, resolved := false, winner := 0, isRentDispute := false }

/-- Baseline contract state around `baseAgreement`. -/
def baseState : EscrowState :=
  { agreement := baseAgreement, dispute := emptyDispute, payments := [],
    lastOverdueCheck := 0, gasSubsidyPool := 0,
    isGasSubsidized := fun _ => false, platformFeePercent := 2,
    rentProcessingFeePercent := 1, disputePeriod := 604800,
    defaultGracePeriod := 259200, platformWallet := 9, owner := 3, selfAddr := 100 }

/-- State after `payRent baseState 5 2000 150 "m" 0`. -/
def c3Post : EscrowState :=
  { baseState with
    agreement := { baseAgreement with totalRentPaid := 150, nextRentDueDate := 5185000 }
    payments := [{ agreementId := 1, amount := 150, paidDate := 2000,
                   periodStart := 1000, periodEnd := 2593000,
                   status := RentStatus.Paid }] }

/-- Transfers emitted by `payRent baseState 5 2000 150 "m" 0`. -/
def c3Tr : List Transfer :=
  [{ recipient := 5, amount := 50 },
   { recipient := 7, amount := 149 },
   { recipient := 9, amount := 1 }]

/-- An active agreement whose lease and dispute window have both ended. -/
def relState : EscrowState :=
  { baseState with agreement := { baseAgreement with endDate := 2000 } }

/-- `relState` after a successful `releaseDeposit`. -/
def relPost : EscrowState :=
  { relState with
    agreement := { relState.agreement with status := AgreementStatus.Completed } }

/-- `baseState` with the agreement still Pending. -/
def pendState : EscrowState :=
  { baseState with agreement := { baseAgreement with status := AgreementStatus.Pending } }

/-- `pendState` after `raiseDispute` by the tenant. -/
def pendPost : EscrowState :=
  { pendState with
    agreement := { pendState.agreement with status := AgreementStatus.Disputed }
    dispute := { agreementId := 1, initiator := 5, reason := "damage",
                 evidenceHashes := ["ev"], createdAt := 1100,
                 resolved := false, winner := 0, isRentDispute := false } }

/-- `baseState` with `totalRentPaid = 100`, the reconciliation counterexample. -/
def c4State : EscrowState :=
  { baseState with agreement := { baseAgreement with totalRentPaid := 100 } }

/-- C1: on an agreement already Completed (after a first successful
`releaseDeposit`), the claim says a second `releaseDeposit` call is rejected
by the status check with no transfer. The code's status check accepts
`Active || Completed`, so the second call succeeds and transfers the
deposit minus fee (980) and the platform fee (20) a second time. -/
theorem releaseDeposit_completed_double_release :
    releaseDeposit relState 7 3000 =
      Except.ok (relPost,
        [{ recipient := 7, amount := 980 }, { recipient := 9, amount := 20 }]) ∧
    relPost.agreement.status = AgreementStatus.Completed ∧
    releaseDeposit relPost 7 3000 =
      Except.ok (relPost,
        [{ recipient := 7, amount := 980 }, { recipient := 9, amount := 20 }]) :=
  ⟨rfl, rfl, rfl⟩

/-- C2 counterexample: the agreement is Pending, and `raiseDispute` by the
tenant succeeds and moves it straight to Disputed — the claim's assertion
that no operation moves an agreement from Pending to Disputed is false. -/
theorem raiseDispute_pending_to_disputed_cex :
    pendState.agreement.status = AgreementStatus.Pending ∧
    raiseDispute pendState 5 1100 "damage" "ev" = Except.ok (pendPost, []) ∧
    pendPost.agreement.status = AgreementStatus.Disputed :=
  ⟨rfl, rfl, rfl⟩

/-- `min` written as the conditional used in the contract. -/
theorem cond_min_eq (p g : Nat) : (if p < g then p else g) = min g p := by
  rcases Nat.lt_or_ge p g with h | h
  · rw [if_pos h, Nat.min_eq_right (Nat.le_of_lt h)]
  · rw [if_neg (Nat.not_lt.mpr h), Nat.min_eq_left h]

/-- C3: every successful `payRent` emits, after the optional gas subsidy,
the excess refund `paymentValue - monthlyRent` to the tenant (when the
payment exceeds the rent), then `paymentValue - fee` to the landlord and
the processing fee `paymentValue * rentProcessingFeePercent / 100`
(truncating division) to the platform. -/
theorem payRent_fee_split (s : EscrowState) (c n v : Nat) (m : String) (g : Nat)
    (s' : EscrowState) (tr : List Transfer)
    (h : payRent s c n v m g = Except.ok (s', tr)) :
    s.agreement.monthlyRent ≤ v ∧
    tr = (if s.isGasSubsidized c = true ∧ 0 < s.gasSubsidyPool then
            [{ recipient := c, amount := min g s.gasSubsidyPool }] else []) ++
         (if s.agreement.monthlyRent < v then
            [{ recipient := c, amount := v - s.agreement.monthlyRent }] else []) ++
         [{ recipient := s.agreement.landlord,
            amount := v - v * s.rentProcessingFeePercent / 100 },
          { recipient := s.platformWallet,
            amount := v * s.rentProcessingFeePercent / 100 }] := by
  simp only [payRent] at h
  split at h
  · exact absurd h (by simp)
  split at h
  · exact absurd h (by simp)
  split at h
  · exact absurd h (by simp)
  split at h
  · exact absurd h (by simp)
  simp only [Except.ok.injEq, Prod.mk.injEq] at h
  obtain ⟨hs, htr⟩ := h
  subst hs
  refine ⟨by omega, ?_⟩
  rw [← htr]
  simp only [cond_min_eq, Nat.sub_pos_iff_lt]

/-- C3 witness: scenario C — rent 100 paid with value 150 at 1% processing
fee yields refund 50 to the tenant, 149 to the landlord and 1 to the
platform, split computed on the full 150. -/
theorem payRent_fee_split_witness :
    payRent baseState 5 2000 150 "m" 0 = Except.ok (c3Post, c3Tr) ∧
    (baseState.agreement.monthlyRent ≤ 150 ∧
     c3Tr = (if baseState.isGasSubsidized 5 = true ∧ 0 < baseState.gasSubsidyPool then
               [{ recipient := 5, amount := min 0 baseState.gasSubsidyPool }] else []) ++
            (if baseState.agreement.monthlyRent < 150 then
               [{ recipient := 5, amount := 150 - baseState.agreement.monthlyRent }] else []) ++
            [{ recipient := baseState.agreement.landlord,
               amount := 150 - 150 * baseState.rentProcessingFeePercent / 100 },
             { recipient := baseState.platformWallet,
               amount := 150 * baseState.rentProcessingFeePercent / 100 }]) :=
  ⟨rfl, payRent_fee_split baseState 5 2000 150 "m" 0 c3Post c3Tr rfl⟩

/-- An operation that leaves the status where it is traverses a self-loop. -/
theorem allowedEdge_refl (a : AgreementStatus) : allowedEdge a a = true := by
  cases a <;> rfl

/-- C2 (amended): every successful operation moves the status only along
the section-4.1 edges extended with Pending to Disputed (which
`raiseDispute` permits), or leaves it unchanged; in particular no
transition ever returns to Pending or Active once left. -/
theorem status_transitions_allowed (s : EscrowState) (op : Op) (s' : EscrowState)
    (tr : List Transfer) (h : step s op = Except.ok (s', tr)) :
    allowedEdge s.agreement.status s'.agreement.status = true := by
  cases op <;>
    simp only [step, tenantConfirm, landlordConfirm, payRent, checkRentOverdue,
      releaseDeposit, raiseDispute, submitEvidence, resolveDispute, cancelAgreement,
      terminateAgreement, fundGasSubsidy, _activateAgreement, _autoRaiseRentDispute] at h <;>
    (repeat' split at h) <;>
    first
      | exact Except.noConfusion h
      | (simp only [Except.ok.injEq, Prod.mk.injEq] at h
         obtain ⟨hs, -⟩ := h
         subst hs
         first
           | exact allowedEdge_refl _
           | (cases hst : s.agreement.status <;> simp_all [allowedEdge]))

/-- C2 witness: a successful `raiseDispute` on a Pending agreement
traverses an allowed edge. -/
theorem status_transitions_allowed_witness :
    step pendState (Op.raiseDisputeOp 5 1100 "damage" "ev") = Except.ok (pendPost, []) ∧
    allowedEdge pendState.agreement.status pendPost.agreement.status = true :=
  ⟨rfl, status_transitions_allowed pendState (Op.raiseDisputeOp 5 1100 "damage" "ev")
    pendPost [] rfl⟩

/-- C6: across every successful operation, `totalRentPaid` grows by exactly
the `msg.value` of a `payRent` call and by nothing on any other operation;
in particular it is monotonically non-decreasing. -/
theorem totalRentPaid_step (s : EscrowState) (op : Op) (s' : EscrowState)
    (tr : List Transfer) (h : step s op = Except.ok (s', tr)) :
    s'.agreement.totalRentPaid = s.agreement.totalRentPaid + opRentValue op ∧
    s.agreement.totalRentPaid ≤ s'.agreement.totalRentPaid := by
  have hmain : s'.agreement.totalRentPaid = s.agreement.totalRentPaid + opRentValue op := by
    cases op <;>
      simp only [step, opRentValue, tenantConfirm, landlordConfirm, payRent, checkRentOverdue,
        releaseDeposit, raiseDispute, submitEvidence, resolveDispute, cancelAgreement,
        terminateAgreement, fundGasSubsidy, _activateAgreement, _autoRaiseRentDispute] at h <;>
      (repeat' split at h) <;>
      first
        | exact Except.noConfusion h
        | (simp only [Except.ok.injEq, Prod.mk.injEq] at h
           obtain ⟨hs, -⟩ := h
           subst hs
           simp [opRentValue])
  exact ⟨hmain, by omega⟩

/-- C6 witness: the scenario-C payment increases `totalRentPaid` by its
`msg.value` of 150. -/
theorem totalRentPaid_step_witness :
    step baseState (Op.payRentOp 5 2000 150 "m" 0) = Except.ok (c3Post, c3Tr) ∧
    (c3Post.agreement.totalRentPaid =
       baseState.agreement.totalRentPaid + opRentValue (Op.payRentOp 5 2000 150 "m" 0) ∧
     baseState.agreement.totalRentPaid ≤ c3Post.agreement.totalRentPaid) :=
  ⟨rfl, totalRentPaid_step baseState (Op.payRentOp 5 2000 150 "m" 0) c3Post c3Tr rfl⟩

/-- C7: every successful `payRent` advances `nextRentDueDate` by exactly one
`rentInterval` and appends one Paid `RentPayment` covering
`[nextRentDueDate - rentInterval, nextRentDueDate]` as of the start of the
call. -/
theorem payRent_due_date_and_period (s : EscrowState) (c n v : Nat) (m : String)
    (g : Nat) (s' : EscrowState) (tr : List Transfer)
    (h : payRent s c n v m g = Except.ok (s', tr)) :
    s'.agreement.nextRentDueDate = s.agreement.nextRentDueDate + s.agreement.rentInterval ∧
    s'.payments = s.payments ++
      [{ agreementId := s.agreement.agreementId, amount := v, paidDate := n,
         periodStart := s.agreement.nextRentDueDate - s.agreement.rentInterval,
         periodEnd := s.agreement.nextRentDueDate, status := RentStatus.Paid }] := by
  simp only [payRent] at h
  split at h
  · exact Except.noConfusion h
  split at h
  · exact Except.noConfusion h
  split at h
  · exact Except.noConfusion h
  split at h
  · exact Except.noConfusion h
  simp only [Except.ok.injEq, Prod.mk.injEq] at h
  obtain ⟨hs, -⟩ := h
  subst hs
  exact ⟨rfl, rfl⟩

/-- C7 witness: the scenario-C payment advances the due date from 2593000
to 5185000 (one 30-day interval) and records the period [1000, 2593000]. -/
theorem payRent_due_date_and_period_witness :
    payRent baseState 5 2000 150 "m" 0 = Except.ok (c3Post, c3Tr) ∧
    (c3Post.agreement.nextRentDueDate =
       baseState.agreement.nextRentDueDate + baseState.agreement.rentInterval ∧
     c3Post.payments = baseState.payments ++
       [{ agreementId := baseState.agreement.agreementId, amount := 150, paidDate := 2000,
          periodStart := baseState.agreement.nextRentDueDate - baseState.agreement.rentInterval,
          periodEnd := baseState.agreement.nextRentDueDate, status := RentStatus.Paid }]) :=
  ⟨rfl, payRent_due_date_and_period baseState 5 2000 150 "m" 0 c3Post c3Tr rfl⟩

/-- A truncating percentage of x with rate at most 100 never exceeds x. -/
theorem mul_pct_div_le (x p : Nat) (hp : p ≤ 100) : x * p / 100 ≤ x := by
  have h1 : x * p ≤ x * 100 := Nat.mul_le_mul_left x hp
  have h2 : x * p / 100 ≤ x * 100 / 100 := Nat.div_le_div_right h1
  simpa using h2

/-- C5: on a successful `payRent` that overpays (`paymentValue > monthlyRent`),
the total value sent out, gas subsidy excluded, is
`paymentValue + (paymentValue - monthlyRent)` — strictly more than the
`paymentValue` the operation received: the landlord is paid on the full
value while the excess is also refunded. -/
theorem payRent_overpay_outflow (s : EscrowState) (c n v : Nat) (m : String) (g : Nat)
    (s' : EscrowState) (tr : List Transfer)
    (h : payRent s c n v m g = Except.ok (s', tr))
    (hcap : s.rentProcessingFeePercent ≤ 3)
    (hover : s.agreement.monthlyRent < v) :
    totalOut tr =
      (if s.isGasSubsidized c = true ∧ 0 < s.gasSubsidyPool then min g s.gasSubsidyPool else 0)
        + (v + (v - s.agreement.monthlyRent)) ∧
    v < v + (v - s.agreement.monthlyRent) := by
  have hfee : v * s.rentProcessingFeePercent / 100 ≤ v :=
    mul_pct_div_le v s.rentProcessingFeePercent (by omega)
  simp only [payRent] at h
  split at h
  · exact Except.noConfusion h
  split at h
  · exact Except.noConfusion h
  split at h
  · exact Except.noConfusion h
  split at h
  · exact Except.noConfusion h
  simp only [Except.ok.injEq, Prod.mk.injEq] at h
  obtain ⟨-, htr⟩ := h
  refine ⟨?_, by omega⟩
  rw [← htr]
  simp only [cond_min_eq, Nat.sub_pos_iff_lt, if_pos hover, totalOut, List.map_append,
    List.sum_append]
  by_cases hc : s.isGasSubsidized c = true ∧ 0 < s.gasSubsidyPool
  · simp only [if_pos hc]
    simp
    omega
  · simp only [if_neg hc]
    simp
    omega

/-- C5 witness: scenario C pays 150 against rent 100; outflow excluding
subsidy is 200, strictly above the 150 received. -/
theorem payRent_overpay_outflow_witness :
    payRent baseState 5 2000 150 "m" 0 = Except.ok (c3Post, c3Tr) ∧
    baseState.rentProcessingFeePercent ≤ 3 ∧
    baseState.agreement.monthlyRent < 150 ∧
    (totalOut c3Tr =
       (if baseState.isGasSubsidized 5 = true ∧ 0 < baseState.gasSubsidyPool then
          min 0 baseState.gasSubsidyPool else 0)
         + (150 + (150 - baseState.agreement.monthlyRent)) ∧
     150 < 150 + (150 - baseState.agreement.monthlyRent)) :=
  ⟨rfl, by decide, by decide,
    payRent_overpay_outflow baseState 5 2000 150 "m" 0 c3Post c3Tr rfl
      (by decide) (by decide)⟩

/-- Pool accounting of a successful `payRent`: the subsidy paid is
`min(estimated cost, pool)` when the tenant is flagged and the pool is
non-empty (0 otherwise), never exceeds the pool, and the pool is
decremented by exactly that amount. -/
theorem payRent_pool_props (s : EscrowState) (c n v : Nat) (m : String) (g : Nat)
    (s' : EscrowState) (tr : List Transfer)
    (h : payRent s c n v m g = Except.ok (s', tr)) :
    (if s.isGasSubsidized c = true ∧ 0 < s.gasSubsidyPool then min g s.gasSubsidyPool else 0)
        ≤ s.gasSubsidyPool ∧
    s'.gasSubsidyPool +
        (if s.isGasSubsidized c = true ∧ 0 < s.gasSubsidyPool then min g s.gasSubsidyPool else 0)
      = s.gasSubsidyPool ∧
    ((s.isGasSubsidized c = true ∧ 0 < s.gasSubsidyPool) →
      tr.head? = some { recipient := c, amount := min g s.gasSubsidyPool }) ∧
    (¬(s.isGasSubsidized c = true ∧ 0 < s.gasSubsidyPool) →
      s'.gasSubsidyPool = s.gasSubsidyPool) := by
  have hmin : min g s.gasSubsidyPool ≤ s.gasSubsidyPool := Nat.min_le_right g s.gasSubsidyPool
  simp only [payRent] at h
  split at h
  · exact Except.noConfusion h
  split at h
  · exact Except.noConfusion h
  split at h
  · exact Except.noConfusion h
  split at h
  · exact Except.noConfusion h
  simp only [Except.ok.injEq, Prod.mk.injEq] at h
  obtain ⟨hs, htr⟩ := h
  subst hs
  rw [← htr]
  by_cases hc : s.isGasSubsidized c = true ∧ 0 < s.gasSubsidyPool
  · simp only [if_pos hc, cond_min_eq]
    refine ⟨hmin, by omega, fun _ => rfl, fun hn => absurd hc hn⟩
  · simp only [if_neg hc]
    exact ⟨Nat.zero_le _, by omega, fun hcc => absurd hcc hc, fun _ => trivial⟩

/-- C10: gas-subsidy pool safety — across every successful operation, only
`payRent` ever pays out of the pool; on a successful `payRent` the subsidy
is paid only when the tenant is flagged and the pool is non-zero, the
amount is `min(estimated execution cost, pool balance)` (emitted first),
the pool is decremented by exactly that amount, and the payout never
exceeds what the pool holds. -/
theorem gas_subsidy_pool_safety (s : EscrowState) (op : Op) (s' : EscrowState)
    (tr : List Transfer) (h : step s op = Except.ok (s', tr)) :
    (s.gasSubsidyPool ≤ s'.gasSubsidyPool ∨ isPayRentOp op = true) ∧
    (∀ c n v m g, op = Op.payRentOp c n v m g →
      (if s.isGasSubsidized c = true ∧ 0 < s.gasSubsidyPool then min g s.gasSubsidyPool else 0)
          ≤ s.gasSubsidyPool ∧
      s'.gasSubsidyPool +
          (if s.isGasSubsidized c = true ∧ 0 < s.gasSubsidyPool then min g s.gasSubsidyPool else 0)
        = s.gasSubsidyPool ∧
      ((s.isGasSubsidized c = true ∧ 0 < s.gasSubsidyPool) →
        tr.head? = some { recipient := c, amount := min g s.gasSubsidyPool }) ∧
      (¬(s.isGasSubsidized c = true ∧ 0 < s.gasSubsidyPool) →
        s'.gasSubsidyPool = s.gasSubsidyPool)) := by
  have hB : ∀ c n v m g, op = Op.payRentOp c n v m g →
      (if s.isGasSubsidized c = true ∧ 0 < s.gasSubsidyPool then min g s.gasSubsidyPool else 0)
          ≤ s.gasSubsidyPool ∧
      s'.gasSubsidyPool +
          (if s.isGasSubsidized c = true ∧ 0 < s.gasSubsidyPool then min g s.gasSubsidyPool else 0)
        = s.gasSubsidyPool ∧
      ((s.isGasSubsidized c = true ∧ 0 < s.gasSubsidyPool) →
        tr.head? = some { recipient := c, amount := min g s.gasSubsidyPool }) ∧
      (¬(s.isGasSubsidized c = true ∧ 0 < s.gasSubsidyPool) →
        s'.gasSubsidyPool = s.gasSubsidyPool) := by
    rintro c n v m g rfl
    exact payRent_pool_props s c n v m g s' tr h
  refine ⟨?_, hB⟩
  cases op <;>
    first
      | exact Or.inr rfl
      | (refine Or.inl ?_
         simp only [step, tenantConfirm, landlordConfirm, checkRentOverdue, releaseDeposit,
           raiseDispute, submitEvidence, resolveDispute, cancelAgreement, terminateAgreement,
           fundGasSubsidy, _activateAgreement, _autoRaiseRentDispute] at h
         (repeat' split at h) <;>
         first
           | exact Except.noConfusion h
           | (simp only [Except.ok.injEq, Prod.mk.injEq] at h
              obtain ⟨hs, -⟩ := h
              subst hs
              simp))

/-- `subState`: the tenant is subsidy-flagged and the pool holds 40 wei. -/
def subState : EscrowState :=
  { baseState with gasSubsidyPool := 40, isGasSubsidized := fun a => a == 5 }

/-- `subState` after `payRent subState 5 2000 150 "m" 70`. -/
def subPost : EscrowState :=
  { subState with
    agreement := { baseAgreement with totalRentPaid := 150, nextRentDueDate := 5185000 }
    payments := [{ agreementId := 1, amount := 150, paidDate := 2000,
                   periodStart := 1000, periodEnd := 2593000,
                   status := RentStatus.Paid }]
    gasSubsidyPool := 0 }

/-- Transfers of `payRent subState 5 2000 150 "m" 70`. -/
def subTr : List Transfer :=
  [{ recipient := 5, amount := 40 },
   { recipient := 5, amount := 50 },
   { recipient := 7, amount := 149 },
   { recipient := 9, amount := 1 }]

/-- C10 witness: with estimated cost 70 and pool 40, the subsidy paid is
min 70 40 = 40, emitted first, and the pool drops to exactly 0. -/
theorem gas_subsidy_pool_safety_witness :
    step subState (Op.payRentOp 5 2000 150 "m" 70) = Except.ok (subPost, subTr) ∧
    ((if subState.isGasSubsidized 5 = true ∧ 0 < subState.gasSubsidyPool then
        min 70 subState.gasSubsidyPool else 0) ≤ subState.gasSubsidyPool ∧
     subPost.gasSubsidyPool +
        (if subState.isGasSubsidized 5 = true ∧ 0 < subState.gasSubsidyPool then
           min 70 subState.gasSubsidyPool else 0)
       = subState.gasSubsidyPool ∧
     ((subState.isGasSubsidized 5 = true ∧ 0 < subState.gasSubsidyPool) →
       subTr.head? = some { recipient := 5, amount := min 70 subState.gasSubsidyPool }) ∧
     (¬(subState.isGasSubsidized 5 = true ∧ 0 < subState.gasSubsidyPool) →
       subPost.gasSubsidyPool = subState.gasSubsidyPool)) :=
  ⟨rfl, (gas_subsidy_pool_safety subState (Op.payRentOp 5 2000 150 "m" 70) subPost subTr
    rfl).2 5 2000 150 "m" 70 rfl⟩

/-- C8: a successful `checkRentOverdue` implies the caller was tenant,
landlord or owner, the 1-day cooldown had elapsed, and
`now > nextRentDueDate + overdueGracePeriod`; it always records the
cooldown timestamp; when `daysOverdue >= 3` it moves the agreement to
Disputed with the system-initiated rent dispute (initiator = the contract,
empty evidence, fixed reason, `isRentDispute = true`), otherwise it leaves
status and dispute untouched. -/
theorem checkRentOverdue_spec (s : EscrowState) (c n : Nat) (s' : EscrowState)
    (tr : List Transfer) (h : checkRentOverdue s c n = Except.ok (s', tr)) :
    (c = s.agreement.tenant ∨ c = s.agreement.landlord ∨ c = s.owner) ∧
    s.lastOverdueCheck + oneDay < n ∧
    s.agreement.nextRentDueDate + s.agreement.overdueGracePeriod < n ∧
    s'.lastOverdueCheck = n ∧
    (3 ≤ (n - (s.agreement.nextRentDueDate + s.agreement.overdueGracePeriod)) / oneDay →
      s'.agreement.status = AgreementStatus.Disputed ∧
      s'.dispute = { agreementId := s.agreement.agreementId, initiator := s.selfAddr,
                     reason := "Rent payment overdue beyond grace period",
                     evidenceHashes := [], createdAt := n, resolved := false,
                     winner := 0, isRentDispute := true }) ∧
    ((n - (s.agreement.nextRentDueDate + s.agreement.overdueGracePeriod)) / oneDay < 3 →
      s'.agreement.status = s.agreement.status ∧ s'.dispute = s.dispute) := by
  simp only [checkRentOverdue, _autoRaiseRentDispute] at h
  split at h
  · exact Except.noConfusion h
  split at h
  · exact Except.noConfusion h
  split at h
  · exact Except.noConfusion h
  split at h
  · exact Except.noConfusion h
  rename_i hActive hAuth hCool hGrace
  split at h
  · rename_i hguard
    simp only [Except.ok.injEq, Prod.mk.injEq] at h
    obtain ⟨hs, -⟩ := h
    subst hs
    exact ⟨not_not.mp hAuth, not_not.mp hCool, not_not.mp hGrace, rfl,
      fun _ => ⟨rfl, rfl⟩, fun hlt => absurd hguard.1 (by omega)⟩
  · rename_i hguard
    have hActiveEq : s.agreement.status = AgreementStatus.Active := not_not.mp hActive
    have hlt : (n - (s.agreement.nextRentDueDate + s.agreement.overdueGracePeriod)) / oneDay < 3 := by
      rcases Decidable.not_and_iff_or_not.mp hguard with h1 | h1
      · omega
      · rw [not_not] at h1
        rw [h1] at hActiveEq
        exact absurd hActiveEq (by simp)
    simp only [Except.ok.injEq, Prod.mk.injEq] at h
    obtain ⟨hs, -⟩ := h
    subst hs
    exact ⟨not_not.mp hAuth, not_not.mp hCool, not_not.mp hGrace, rfl,
      fun hge => absurd hge (by omega), fun _ => ⟨rfl, rfl⟩⟩

/-- `baseState` after `checkRentOverdue baseState 7 3111401` (3 days past
the grace end 2852200): cooldown stamped and auto-dispute raised. -/
def c8Post : EscrowState :=
  { baseState with
    agreement := { baseAgreement with status := AgreementStatus.Disputed }
    dispute := { agreementId := 1, initiator := 100,
                 reason := "Rent payment overdue beyond grace period",
                 evidenceHashes := [], createdAt := 3111401,
                 resolved := false, winner := 0, isRentDispute := true }
    lastOverdueCheck := 3111401 }

/-- C8 witness: scenario D — rent unpaid, call 3 days past the grace end;
the cooldown timestamp is recorded and the agreement auto-transitions to
Disputed with the system-initiated rent dispute. -/
theorem checkRentOverdue_spec_witness :
    checkRentOverdue baseState 7 3111401 = Except.ok (c8Post, []) ∧
    (7 = baseState.agreement.tenant ∨ 7 = baseState.agreement.landlord ∨
      7 = baseState.owner) ∧
    c8Post.lastOverdueCheck = 3111401 ∧
    (c8Post.agreement.status = AgreementStatus.Disputed ∧
     c8Post.dispute = { agreementId := baseState.agreement.agreementId,
                        initiator := baseState.selfAddr,
                        reason := "Rent payment overdue beyond grace period",
                        evidenceHashes := [], createdAt := 3111401,
                        resolved := false, winner := 0, isRentDispute := true }) := by
  have hmain := checkRentOverdue_spec baseState 7 3111401 c8Post [] rfl
  exact ⟨rfl, hmain.1, hmain.2.2.2.1, hmain.2.2.2.2.1 (by decide)⟩

/-- A `resolveDispute` call on an agreement that is not Disputed reverts. -/
theorem resolveDispute_needs_disputed (s : EscrowState) (c2 : Nat) (rt2 : Bool)
    (r2 : EscrowState × List Transfer)
    (hst : s.agreement.status ≠ AgreementStatus.Disputed) :
    resolveDispute s c2 rt2 ≠ Except.ok r2 := by
  intro hok
  simp only [resolveDispute] at hok
  (repeat' split at hok) <;>
    first
      | exact Except.noConfusion hok
      | simp_all

/-- C9: a successful `resolveDispute` requires the admin caller, status
Disputed and an unresolved dispute; it marks the dispute resolved; with
`refundTenant` it sets winner = tenant, status Terminated and refunds the
full deposit with no fee; otherwise winner = landlord, status Completed,
deposit minus platform fee to the landlord and the fee to the platform;
and after it no further `resolveDispute` call can succeed (so `winner` is
set exactly once). -/
theorem resolveDispute_spec (s : EscrowState) (c : Nat) (rt : Bool) (s' : EscrowState)
    (tr : List Transfer) (h : resolveDispute s c rt = Except.ok (s', tr)) :
    c = s.owner ∧ s.agreement.status = AgreementStatus.Disputed ∧
    s.dispute.resolved = false ∧ s'.dispute.resolved = true ∧
    (rt = true → s'.dispute.winner = s.agreement.tenant ∧
      s'.agreement.status = AgreementStatus.Terminated ∧
      tr = [{ recipient := s.agreement.tenant, amount := s.agreement.depositAmount }]) ∧
    (rt = false → s'.dispute.winner = s.agreement.landlord ∧
      s'.agreement.status = AgreementStatus.Completed ∧
      tr = [{ recipient := s.agreement.landlord,
              amount := s.agreement.depositAmount
                - s.agreement.depositAmount * s.platformFeePercent / 100 },
            { recipient := s.platformWallet,
              amount := s.agreement.depositAmount * s.platformFeePercent / 100 }]) ∧
    (∀ c2 rt2 r2, resolveDispute s' c2 rt2 ≠ Except.ok r2) := by
  simp only [resolveDispute] at h
  split at h
  · exact Except.noConfusion h
  split at h
  · exact Except.noConfusion h
  split at h
  · exact Except.noConfusion h
  rename_i hown hdisp hres
  split at h <;>
    rename_i hrt <;>
    simp only [Except.ok.injEq, Prod.mk.injEq] at h <;>
    obtain ⟨hs, htr⟩ := h <;>
    subst hs
  · refine ⟨not_not.mp hown, not_not.mp hdisp, by simpa using hres, rfl,
      fun _ => ⟨rfl, rfl, htr.symm⟩, fun hf => absurd hrt (by simp [hf]), ?_⟩
    intro c2 rt2 r2
    exact resolveDispute_needs_disputed _ c2 rt2 r2
      (fun hx => AgreementStatus.noConfusion hx)
  · refine ⟨not_not.mp hown, not_not.mp hdisp, by simpa using hres, rfl,
      fun ht => absurd ht (by simp_all), fun _ => ⟨rfl, rfl, htr.symm⟩, ?_⟩
    intro c2 rt2 r2
    exact resolveDispute_needs_disputed _ c2 rt2 r2
      (fun hx => AgreementStatus.noConfusion hx)

/-- A live party-raised dispute on `baseAgreement`. -/
def dispState : EscrowState :=
  { baseState with
    agreement := { baseAgreement with status := AgreementStatus.Disputed }
    dispute := { agreementId := 1, initiator := 5, reason := "damage",
                 evidenceHashes := ["ev"], createdAt := 1100,
                 resolved := false, winner := 0, isRentDispute := false } }

/-- `dispState` after the admin resolves for the tenant. -/
def dspPost : EscrowState :=
  { dispState with
    agreement := { dispState.agreement with status := AgreementStatus.Terminated }
    dispute := { dispState.dispute with resolved := true, winner := 5 } }

/-- C9 witness: scenario E — the admin resolves with `refundTenant = true`:
the tenant receives the full 1000 deposit, status becomes Terminated,
winner = tenant, the dispute is resolved, and a repeat call fails. -/
theorem resolveDispute_spec_witness :
    resolveDispute dispState 3 true =
      Except.ok (dspPost, [{ recipient := 5, amount := 1000 }]) ∧
    dspPost.dispute.resolved = true ∧
    (dspPost.dispute.winner = dispState.agreement.tenant ∧
     dspPost.agreement.status = AgreementStatus.Terminated ∧
     ([{ recipient := 5, amount := 1000 }] : List Transfer) =
       [{ recipient := dispState.agreement.tenant,
          amount := dispState.agreement.depositAmount }]) ∧
    resolveDispute dspPost 3 true ≠
      Except.ok (dspPost, [{ recipient := 5, amount := 1000 }]) := by
  have hmain := resolveDispute_spec dispState 3 true dspPost
    [{ recipient := 5, amount := 1000 }] rfl
  exact ⟨rfl, hmain.2.2.2.1, hmain.2.2.2.2.1 rfl,
    hmain.2.2.2.2.2.2 3 true (dspPost, [{ recipient := 5, amount := 1000 }])⟩

/-- C4 counterexample: with deposit 1000, totalRentPaid 100, 2% deposit fee
and 1% rent fee, `netToLandlord = 980 + 99 = 1079` and `depositFee = 20`,
so `landlordNet + depositFee = 1099 ≠ 1000 = depositAmount` — the claimed
reconciliation fails because `landlordNet` also contains the rent
remainder. -/
theorem feeBreakdown_reconcile_cex :
    ¬((calculateFeeBreakdown c4State 0).netToLandlord
        + (calculateFeeBreakdown c4State 0).platformFeeOnDeposit
      = (calculateFeeBreakdown c4State 0).depositAmount) := by decide

/-- C4 (amended): for all fee percentages within the caps, the fee engine
reconciles as `landlordNet + depositFee + rentFee = depositAmount +
totalRentPaid`, and `rentFee + (totalRentPaid - rentFee) = totalRentPaid`. -/
theorem feeBreakdown_reconciles (s : EscrowState) (lf : Nat)
    (hdep : s.platformFeePercent ≤ 5) (hrent : s.rentProcessingFeePercent ≤ 3) :
    (calculateFeeBreakdown s lf).netToLandlord
        + (calculateFeeBreakdown s lf).platformFeeOnDeposit
        + (calculateFeeBreakdown s lf).platformFeeOnRent
      = (calculateFeeBreakdown s lf).depositAmount
        + (calculateFeeBreakdown s lf).totalRentPaid ∧
    (calculateFeeBreakdown s lf).platformFeeOnRent
        + ((calculateFeeBreakdown s lf).totalRentPaid
            - (calculateFeeBreakdown s lf).platformFeeOnRent)
      = (calculateFeeBreakdown s lf).totalRentPaid := by
  have hd : s.agreement.depositAmount * s.platformFeePercent / 100
      ≤ s.agreement.depositAmount :=
    mul_pct_div_le s.agreement.depositAmount s.platformFeePercent (by omega)
  have hr : s.agreement.totalRentPaid * s.rentProcessingFeePercent / 100
      ≤ s.agreement.totalRentPaid :=
    mul_pct_div_le s.agreement.totalRentPaid s.rentProcessingFeePercent (by omega)
  simp only [calculateFeeBreakdown]
  constructor <;> omega

/-- C4 witness: the amended reconciliation at the counterexample state —
1079 + 20 + 1 = 1000 + 100 and 1 + 99 = 100. -/
theorem feeBreakdown_reconciles_witness :
    c4State.platformFeePercent ≤ 5 ∧ c4State.rentProcessingFeePercent ≤ 3 ∧
    ((calculateFeeBreakdown c4State 0).netToLandlord
        + (calculateFeeBreakdown c4State 0).platformFeeOnDeposit
        + (calculateFeeBreakdown c4State 0).platformFeeOnRent
      = (calculateFeeBreakdown c4State 0).depositAmount
        + (calculateFeeBreakdown c4State 0).totalRentPaid ∧
     (calculateFeeBreakdown c4State 0).platformFeeOnRent
        + ((calculateFeeBreakdown c4State 0).totalRentPaid
            - (calculateFeeBreakdown c4State 0).platformFeeOnRent)
      = (calculateFeeBreakdown c4State 0).totalRentPaid) :=
  ⟨by decide, by decide, feeBreakdown_reconciles c4State 0 (by decide) (by decide)⟩

end TrustLease
